import Mathlib

/-!
# Verification of the bank-app PDA vault and per-user reserve system

Shallow embedding of the `bank-app` Anchor program from the tutorial
repository (lessons 03 Program Derived Address, 04 Associated Token Account,
05 Cross Program Invocation), together with proofs about its instruction
handlers.

Source files embedded from `src/`:
* `03 - Program Derived Address (PDA)/bank-app/programs/bank-app/src/instructions/withdraw.rs`
* `03 - Program Derived Address (PDA)/bank-app/programs/bank-app/src/lib.rs`
* `04 - Associated Token Account (ATA)/bank-app/programs/bank-app/src/instructions/withdraw.rs`
* `04 - Associated Token Account (ATA)/bank-app/programs/bank-app/src/instructions/mod.rs`
* `04 - Associated Token Account (ATA)/bank-app/programs/bank-app/src/lib.rs`
* `05 - Cross Program Invocation (CPI)/bank-app/programs/bank-app/src/lib.rs`

The modules `constant.rs`, `error.rs`, `state.rs`, and the bodies of
`initialize.rs`, `deposit.rs`, `deposit_token.rs`, `invest.rs` are not in
`src/`; where a claim depends on them they are modelled from the spec and
explicitly marked `Modelled from the spec:` in their doc comments.

Machine integers: `u64` quantities are `Nat`; additions that the Rust code
would perform on `u64` are reduced `% 2^64`; subtractions are guarded by the
corresponding balance checks, so `Nat` subtraction is exact there.

Derived addresses: Solana's `find_program_address`/`create_program_address`
are SHA-256 based; the runtime guarantee relied on by the spec is that the
map from (program id, seed list) to addresses is collision-free and that
derived addresses have no private key.  We model an address as either an
ordinary keypair address or a derived address identified by its derivation
inputs, so collision-freeness is constructor injectivity.  The bump search
is hash-dependent; in the model every candidate is off-curve, so the
canonical bump is the first candidate tried, 255.
-/

namespace BankApp

/-- Byte strings (seed material, serialized public keys) as lists of bytes. -/
abbrev Bytes := List Nat

/-- Seed tag for the `BankInfo` account.
Modelled from the spec: `constant.rs` is absent from `src/`; the spec fixes
"seed tags are program-wide constants: a bank-info tag, a bank-vault tag, a
user-reserve tag".  We use the ASCII bytes of "bank_info". -/
def BANK_INFO_SEED : Bytes := [98, 97, 110, 107, 95, 105, 110, 102, 111]

/-- Seed tag for the native vault account.
Modelled from the spec (`constant.rs` absent): ASCII bytes of "bank_vault". -/
def BANK_VAULT_SEED : Bytes := [98, 97, 110, 107, 95, 118, 97, 117, 108, 116]

/-- Seed tag for per-user reserve accounts.
Modelled from the spec (`constant.rs` absent): ASCII bytes of "user_reserve". -/
def USER_RESERVE_SEED : Bytes :=
  [117, 115, 101, 114, 95, 114, 101, 115, 101, 114, 118, 101]

/-- The program identity (`declare_id!` in `lib.rs`), abstracted to a fixed
byte string; its concrete value never matters, only that it is fixed. -/
def PROGRAM_ID : Bytes := [51, 113, 53, 55]

/-- An account address: either an ordinary keypair-backed address or a
program-derived address, identified by its derivation inputs.  Constructor
injectivity models the runtime guarantee that derivation is collision-free
and that derived addresses fall outside the keypair address space. -/
inductive Pubkey where
  | key (bytes : Bytes)
  | pda (programId : Bytes) (seeds : List Bytes)
deriving DecidableEq, Repr

/-- `create_program_address`: derive the address for a full seed list
(bump included as the final seed). -/
def createProgramAddress (seeds : List Bytes) (programId : Bytes) : Pubkey :=
  Pubkey.pda programId seeds

/-- `find_program_address`: append the canonical bump to the seeds and
return the derived address with that bump.  In this model every candidate
address is off-curve, so the canonical bump is the first candidate, 255. -/
def findProgramAddress (seeds : List Bytes) (programId : Bytes) :
    Pubkey × Nat :=
  (createProgramAddress (seeds ++ [[255]]) programId, 255)

/-- The derived address of the `BankInfo` singleton (seed: `BANK_INFO_SEED`). -/
def bankInfoAddress (programId : Bytes) : Pubkey :=
  (findProgramAddress [BANK_INFO_SEED] programId).1

/-- The canonical bump of the `BankInfo` address. -/
def bankInfoBump (programId : Bytes) : Nat :=
  (findProgramAddress [BANK_INFO_SEED] programId).2

/-- The derived address of the native vault (seed: `BANK_VAULT_SEED`). -/
def bankVaultAddress (programId : Bytes) : Pubkey :=
  (findProgramAddress [BANK_VAULT_SEED] programId).1

/-- The canonical bump of the native vault address. -/
def bankVaultBump (programId : Bytes) : Nat :=
  (findProgramAddress [BANK_VAULT_SEED] programId).2

/-- The derived address of a user's `UserReserve`
(seeds: `USER_RESERVE_SEED`, the user's serialized public key), as declared
by the `user_reserve` account constraint in both lessons' `withdraw.rs`:
`seeds = [USER_RESERVE_SEED, user.key().as_ref()], bump`. -/
def userReserveAddress (programId : Bytes) (userKey : Bytes) : Pubkey :=
  (findProgramAddress [USER_RESERVE_SEED, userKey] programId).1

/-- `BankInfo` account state.  `state.rs` is absent from `src/`; the fields
are those accessed by the code in `src/` (`bank_info.is_paused`,
`bank_info.bump`) — the spec calls the stored bump `vault_bump`. -/
structure BankInfo where
  is_paused : Bool
  bump : Nat
deriving DecidableEq, Repr

/-- `UserReserve` account state.  `state.rs` is absent from `src/`; fields
from the spec data model: owner, accounted balance, derivation bump. -/
structure UserReserve where
  owner : Bytes
  balance : Nat
  bump : Nat
deriving DecidableEq, Repr

/-- Association-list lookup keyed by byte strings. -/
def lookupB {α : Type} (k : Bytes) : List (Bytes × α) → Option α
  | [] => none
  | (k₁, v) :: rest => if k₁ = k then some v else lookupB k rest

/-- Association-list insert/overwrite keyed by byte strings. -/
def insertB {α : Type} (k : Bytes) (v : α) :
    List (Bytes × α) → List (Bytes × α)
  | [] => [(k, v)]
  | (k₁, v₁) :: rest =>
      if k₁ = k then (k, v) :: rest else (k₁, v₁) :: insertB k v rest

/-- The observable on-chain state touched by the program: the `BankInfo`
singleton (if created), every user's reserve record keyed by the user's
public-key bytes, users' external native holdings, the pooled native vault
holdings, users' external token holdings, the pooled token vault holdings,
and the amount delegated to the external staking service. -/
structure Chain where
  bankInfo : Option BankInfo
  reserves : List (Bytes × UserReserve)
  wallets : List (Bytes × Nat)
  vault : Nat
  tokenWallets : List (Bytes × Nat)
  tokenVault : Nat
  staked : Nat
deriving DecidableEq, Repr

/-- Errors.  `error.rs` is absent from `src/`; `BankAppPaused` is the
variant the code in `src/` raises (`BankAppError::BankAppPaused`, called
`BankPaused` by the spec); `InsufficientReserve` is from the spec error
model; the remaining variants are the runtime/collaborator-surfaced errors
the spec lists (account resolution, create-if-vacant, external transfer). -/
inductive BankAppError where
  | BankAppPaused
  | InsufficientReserve
  | InsufficientFunds
  | AccountNotFound
  | AccountAlreadyInUse
deriving DecidableEq, Repr

/-- A handler outcome: the instruction result together with the state as the
handler leaves it.  A handler that errored after mutating would surface the
mutation here, so "no mutation on failure" is a property of each handler's
branch structure, not of the encoding. -/
abbrev HandlerResult := Except BankAppError Unit × Chain

def u64Mod : Nat := 2 ^ 64

/-- The single signer-seed sequence built by lesson 03's `Withdraw::process`
(line 35): `&[&[BANK_INFO_SEED, &[ctx.accounts.bank_info.bump]]]` — the
bank-info seed tag followed by the stored bump byte. -/
def withdraw03SignerSeeds (bank_info : BankInfo) : List Bytes :=
  [BANK_INFO_SEED, [bank_info.bump]]

/-- The single signer-seed sequence built by lesson 04's `Withdraw::process`
(line 45): `&[&[BANK_VAULT_SEED, &[ctx.accounts.bank_info.bump]]]` — the
bank-vault seed tag followed by the stored bump byte. -/
def withdraw04SignerSeeds (bank_info : BankInfo) : List Bytes :=
  [BANK_VAULT_SEED, [bank_info.bump]]

/-- Lesson 03 `Withdraw::process` (`instructions/withdraw.rs` lines 29-40).
Account resolution (the `Accounts` struct) loads `bank_info` and
`user_reserve`; both must exist.  The body checks `is_paused` and returns
`BankAppPaused` if set; it then binds the signer seeds and — the transfer
logic being left as the comment `// Your code here` — returns `Ok(())`
without reading `withdraw_amount` or mutating any account. -/
def Withdraw03.process (c : Chain) (user : Bytes) (withdraw_amount : Nat) :
    HandlerResult :=
  match c.bankInfo with
  | none => (Except.error BankAppError.AccountNotFound, c)
  | some bank_info =>
    match lookupB user c.reserves with
    | none => (Except.error BankAppError.AccountNotFound, c)
    | some _user_reserve =>
      if bank_info.is_paused then
        (Except.error BankAppError.BankAppPaused, c)
      else
        let _pda_seeds := [withdraw03SignerSeeds bank_info]
        let _ := withdraw_amount
        (Except.ok (), c)

/-- Lesson 04 `Withdraw::process` (`instructions/withdraw.rs` lines 39-50).
Identical body to lesson 03 except the signer seeds use `BANK_VAULT_SEED`;
likewise a stub: after the pause check it returns `Ok(())` with no mutation. -/
def Withdraw04.process (c : Chain) (user : Bytes) (withdraw_amount : Nat) :
    HandlerResult :=
  match c.bankInfo with
  | none => (Except.error BankAppError.AccountNotFound, c)
  | some bank_info =>
    match lookupB user c.reserves with
    | none => (Except.error BankAppError.AccountNotFound, c)
    | some _user_reserve =>
      if bank_info.is_paused then
        (Except.error BankAppError.BankAppPaused, c)
      else
        let _pda_seeds := [withdraw04SignerSeeds bank_info]
        let _ := withdraw_amount
        (Except.ok (), c)

/-- `Initialize::process`.
Modelled from the spec: `initialize.rs` is absent from `src/` (only the
`lib.rs` wrapper is present).  Spec §4.2: creates `BankInfo` at its derived
address with `is_paused = false`, records `vault_bump`; the runtime's
create semantics reject the call if the account already exists. -/
def Initialize.process (c : Chain) : HandlerResult :=
  match c.bankInfo with
  | some _ => (Except.error BankAppError.AccountAlreadyInUse, c)
  | none =>
      (Except.ok (),
        { c with
          bankInfo := some { is_paused := false
                             bump := bankVaultBump PROGRAM_ID } })

/-- `Deposit::process`.
Modelled from the spec: `deposit.rs` is absent from `src/`.  Spec §4.3:
requires `BankInfo` not paused; transfers `amount` from the caller's
external holdings to the native vault (the external facility surfaces
`InsufficientFunds` if the caller's holdings are below `amount`); creates
the caller's `UserReserve` if absent; increments `balance` by `amount`. -/
def Deposit.process (c : Chain) (user : Bytes) (deposit_amount : Nat) :
    HandlerResult :=
  match c.bankInfo with
  | none => (Except.error BankAppError.AccountNotFound, c)
  | some bank_info =>
    if bank_info.is_paused then
      (Except.error BankAppError.BankAppPaused, c)
    else
      let w := (lookupB user c.wallets).getD 0
      if w < deposit_amount then
        (Except.error BankAppError.InsufficientFunds, c)
      else
        let r := (lookupB user c.reserves).getD
          { owner := user, balance := 0, bump := 255 }
        (Except.ok (),
          { c with
            wallets := insertB user (w - deposit_amount) c.wallets
            vault := (c.vault + deposit_amount) % u64Mod
            reserves := insertB user
              { r with balance := (r.balance + deposit_amount) % u64Mod }
              c.reserves })

/-- `DepositToken::process`.
Modelled from the spec: `deposit_token.rs` is absent from `src/`.  Spec
§4.4: same contract as Deposit, with the token-transfer capability moving
`amount` token units from the caller's associated token account to the
vault's associated token account. -/
def DepositToken.process (c : Chain) (user : Bytes) (deposit_amount : Nat) :
    HandlerResult :=
  match c.bankInfo with
  | none => (Except.error BankAppError.AccountNotFound, c)
  | some bank_info =>
    if bank_info.is_paused then
      (Except.error BankAppError.BankAppPaused, c)
    else
      let w := (lookupB user c.tokenWallets).getD 0
      if w < deposit_amount then
        (Except.error BankAppError.InsufficientFunds, c)
      else
        let r := (lookupB user c.reserves).getD
          { owner := user, balance := 0, bump := 255 }
        (Except.ok (),
          { c with
            tokenWallets := insertB user (w - deposit_amount) c.tokenWallets
            tokenVault := (c.tokenVault + deposit_amount) % u64Mod
            reserves := insertB user
              { r with balance := (r.balance + deposit_amount) % u64Mod }
              c.reserves })

/-- `WithdrawToken::process`.
Modelled from the spec: no `withdraw_token.rs` exists under `src/` (lesson
04 comments the module out).  Spec §4.6 designed contract: not paused;
caller's reserve exists with `balance >= amount`, else
`InsufficientReserve`; on success the token vault pays `amount` to the
caller's associated token account under a derived-address signature and
`balance` is decremented by `amount`. -/
def WithdrawToken.process (c : Chain) (user : Bytes) (withdraw_amount : Nat) :
    HandlerResult :=
  match c.bankInfo with
  | none => (Except.error BankAppError.AccountNotFound, c)
  | some bank_info =>
    match lookupB user c.reserves with
    | none => (Except.error BankAppError.AccountNotFound, c)
    | some r =>
      if bank_info.is_paused then
        (Except.error BankAppError.BankAppPaused, c)
      else if r.balance < withdraw_amount then
        (Except.error BankAppError.InsufficientReserve, c)
      else
        let w := (lookupB user c.tokenWallets).getD 0
        (Except.ok (),
          { c with
            tokenVault := c.tokenVault - withdraw_amount
            tokenWallets :=
              insertB user ((w + withdraw_amount) % u64Mod) c.tokenWallets
            reserves := insertB user
              { r with balance := r.balance - withdraw_amount } c.reserves })

/-- `Invest::process`.
Modelled from the spec: `invest.rs` is absent from `src/` (only the lesson
05 `lib.rs` wrapper is present).  Spec §4.7: preconditions: not paused;
sufficient reserve (`InsufficientReserve` otherwise); effect: delegates
`amount` to the external staking service with `is_stake` selecting the
direction, adjusting the caller's `balance` to reflect funds
leaving/entering the vault's direct custody.  The stake-out direction
(funds leaving, `is_stake = true`) also requires the vault to cover the
movement; the reverse direction requires the staked pool to. -/
def Invest.process (c : Chain) (user : Bytes) (amount : Nat)
    (is_stake : Bool) : HandlerResult :=
  match c.bankInfo with
  | none => (Except.error BankAppError.AccountNotFound, c)
  | some bank_info =>
    match lookupB user c.reserves with
    | none => (Except.error BankAppError.AccountNotFound, c)
    | some r =>
      if bank_info.is_paused then
        (Except.error BankAppError.BankAppPaused, c)
      else if r.balance < amount then
        (Except.error BankAppError.InsufficientReserve, c)
      else if is_stake then
        if c.vault < amount then
          (Except.error BankAppError.InsufficientFunds, c)
        else
          (Except.ok (),
            { c with
              vault := c.vault - amount
              staked := (c.staked + amount) % u64Mod
              reserves := insertB user
                { r with balance := r.balance - amount } c.reserves })
      else
        if c.staked < amount then
          (Except.error BankAppError.InsufficientFunds, c)
        else
          (Except.ok (),
            { c with
              staked := c.staked - amount
              vault := (c.vault + amount) % u64Mod
              reserves := insertB user
                { r with balance := (r.balance + amount) % u64Mod }
                c.reserves })

/-- The program's dispatchable instructions (the union over the lessons'
`#[program]` modules), with their parameters and the calling user. -/
inductive Instr where
  | Initialize
  | Deposit (user : Bytes) (amount : Nat)
  | DepositToken (user : Bytes) (amount : Nat)
  | Withdraw (user : Bytes) (amount : Nat)
  | WithdrawToken (user : Bytes) (amount : Nat)
  | Invest (user : Bytes) (amount : Nat) (is_stake : Bool)
deriving DecidableEq, Repr

/-- Dispatch: each instruction routed to its handler (`lib.rs` wrappers).
`withdraw` is routed to the lesson 03 handler; the lesson 04 handler's
behavior is identical. -/
def step (c : Chain) : Instr → HandlerResult
  | Instr.Initialize => Initialize.process c
  | Instr.Deposit u a => Deposit.process c u a
  | Instr.DepositToken u a => DepositToken.process c u a
  | Instr.Withdraw u a => Withdraw03.process c u a
  | Instr.WithdrawToken u a => WithdrawToken.process c u a
  | Instr.Invest u a s => Invest.process c u a s

/-- Whether the runtime can resolve the accounts an instruction names:
`withdraw`, `withdrawToken` and `invest` declare the caller's reserve as an
existing PDA account; `deposit`/`depositToken` create it if absent;
`initialize` creates `BankInfo`. -/
def accountsResolve (c : Chain) : Instr → Bool
  | Instr.Initialize => true
  | Instr.Deposit _ _ => true
  | Instr.DepositToken _ _ => true
  | Instr.Withdraw u _ => (lookupB u c.reserves).isSome
  | Instr.WithdrawToken u _ => (lookupB u c.reserves).isSome
  | Instr.Invest u _ _ => (lookupB u c.reserves).isSome

/-- Decidable equality of handler outcomes, so concrete runs evaluate. -/
instance : DecidableEq (Except BankAppError Unit) := fun x y =>
  match x, y with
  | Except.ok a, Except.ok b =>
      if h : a = b then Decidable.isTrue (congrArg Except.ok h)
      else Decidable.isFalse (fun hc => h (Except.ok.inj hc))
  | Except.error a, Except.error b =>
      if h : a = b then Decidable.isTrue (congrArg Except.error h)
      else Decidable.isFalse (fun hc => h (Except.error.inj hc))
  | Except.ok _, Except.error _ =>
      Decidable.isFalse (fun hc => Except.noConfusion hc)
  | Except.error _, Except.ok _ =>
      Decidable.isFalse (fun hc => Except.noConfusion hc)

/-- The instruction names dispatchable from lesson 05's `#[program]` module
(`05 - Cross Program Invocation (CPI)/.../lib.rs` lines 13-32). -/
def lesson05Entrypoints : List String :=
  ["initialize", "invest", "deposit", "deposit_token"]

/-- The instruction modules lesson 04 compiles and re-exports
(`04 - Associated Token Account (ATA)/.../instructions/mod.rs`); the
`pause`, `withdraw` and `withdraw_token` lines are commented out. -/
def lesson04InstructionModules : List String :=
  ["deposit", "deposit_token", "initialize"]

/-- A sample user key (serialized bytes). -/
def userA : Bytes := [1]

/-- A fresh deployment: no `BankInfo`, no reserves, user A holding 1000
native units and 1000 token units externally, empty vaults. -/
def chain0 : Chain :=
  { bankInfo := none, reserves := [], wallets := [(userA, 1000)],
    vault := 0, tokenWallets := [(userA, 1000)], tokenVault := 0,
    staked := 0 }

/-- State after `Initialize`. -/
def chain1 : Chain := (step chain0 Instr.Initialize).2

/-- State after `Initialize` then `Deposit(100)` by user A. -/
def chain2 : Chain := (step chain1 (Instr.Deposit userA 100)).2

/-- State after `Initialize`, `Deposit(50)` by user A. -/
def chain3 : Chain := (step chain1 (Instr.Deposit userA 50)).2

/-- State after `Initialize`, `Deposit(50)`, `Deposit(30)` by user A. -/
def chain4 : Chain := (step chain3 (Instr.Deposit userA 30)).2

end BankApp

namespace BankApp

/-- C9: for every withdraw amount (0 and amounts exceeding the balance
included), when the bank is not paused and the named accounts resolve, the
lesson 03 and lesson 04 `Withdraw::process` stubs return `Ok` and leave the
whole observable state — reserve balances, `BankInfo`, vault holdings —
unchanged: no transfer is performed. -/
theorem c9_withdraw_stub_returns_ok_unchanged
    (c : Chain) (bi : BankInfo) (r : UserReserve) (u : Bytes) (amount : Nat)
    (hbi : c.bankInfo = some bi) (hp : bi.is_paused = false)
    (hr : lookupB u c.reserves = some r) :
    Withdraw03.process c u amount = (Except.ok (), c) ∧
    Withdraw04.process c u amount = (Except.ok (), c) := by
  constructor <;> simp [Withdraw03.process, Withdraw04.process, hbi, hr, hp]

/-- Witness for C9: in the concrete state reached by Initialize then
Deposit(100), a withdraw of 40 returns `Ok` and changes nothing. -/
theorem c9_withdraw_stub_returns_ok_unchanged_witness :
    Withdraw03.process chain2 userA 40 = (Except.ok (), chain2) ∧
    Withdraw04.process chain2 userA 40 = (Except.ok (), chain2) :=
  c9_withdraw_stub_returns_ok_unchanged chain2
    { is_paused := false, bump := bankVaultBump PROGRAM_ID }
    { owner := userA, balance := 100, bump := 255 }
    userA 40 (by decide) (by decide) (by decide)

/-- C1 (code evaluation at the failing input): after Deposit(100) by user A
with the bank unpaused, a withdraw request of 1000 — far above the balance
of 100 — does NOT fail with `InsufficientReserve`: both lessons' stubs
return `Ok` and mutate nothing, because the balance check and transfer are
left as the `// Your code here` placeholder. -/
theorem c1_withdraw_missing_reserve_check :
    (lookupB userA chain2.reserves).map UserReserve.balance = some 100 ∧
    Withdraw03.process chain2 userA 1000 = (Except.ok (), chain2) ∧
    Withdraw04.process chain2 userA 1000 = (Except.ok (), chain2) := by
  decide

/-- C3 (code evaluation at the failing input): after Initialize and
Deposit(100) by user A, `Withdraw(40)` succeeds but the balance stays 100
(not 60) and the vault stays 100 (not decreased by 40): the stub performs
no decrement and no transfer. -/
theorem c3_withdraw_does_not_decrement :
    (lookupB userA chain2.reserves).map UserReserve.balance = some 100 ∧
    chain2.vault = 100 ∧
    step chain2 (Instr.Withdraw userA 40) = (Except.ok (), chain2) := by
  decide

/-- C5 (code evaluation at the failing input): after successful
Deposit(50), Deposit(30), Withdraw(20) on one reserve, the balance is 80 —
the sum of deposits — not 60, the sum of deposits minus withdrawals: the
withdraw stub never subtracts. -/
theorem c5_balance_ignores_withdrawals :
    (step chain3 (Instr.Deposit userA 30)).1 = Except.ok () ∧
    (step chain4 (Instr.Withdraw userA 20)).1 = Except.ok () ∧
    (lookupB userA (step chain4 (Instr.Withdraw userA 20)).2.reserves).map
      UserReserve.balance = some 80 := by
  decide

/-- C6: UserReserve address derivation is injective in the owner: distinct
user keys give distinct derived reserve addresses, for every program id. -/
theorem c6_user_reserve_address_injective
    (pid u1 u2 : Bytes) (h : u1 ≠ u2) :
    userReserveAddress pid u1 ≠ userReserveAddress pid u2 := by
  intro heq
  apply h
  simpa [userReserveAddress, findProgramAddress, createProgramAddress]
    using heq

/-- Witness for C6 at two concrete distinct users. -/
theorem c6_user_reserve_address_injective_witness :
    userReserveAddress PROGRAM_ID [1] ≠ userReserveAddress PROGRAM_ID [2] :=
  c6_user_reserve_address_injective PROGRAM_ID [1] [2] (by decide)

/-- C7: when a `BankInfo` record already exists, a second Initialize is
rejected (create-if-vacant semantics) and the existing record is untouched. -/
theorem c7_initialize_rejected_when_existing
    (c : Chain) (bi : BankInfo) (h : c.bankInfo = some bi) :
    step c Instr.Initialize =
      (Except.error BankAppError.AccountAlreadyInUse, c) ∧
    (step c Instr.Initialize).2.bankInfo = some bi := by
  refine ⟨?_, ?_⟩ <;> simp [step, Initialize.process, h]

/-- Witness for C7: re-initializing the already-initialized state fails and
preserves the record. -/
theorem c7_initialize_rejected_when_existing_witness :
    step chain1 Instr.Initialize =
      (Except.error BankAppError.AccountAlreadyInUse, chain1) ∧
    (step chain1 Instr.Initialize).2.bankInfo =
      some { is_paused := false, bump := bankVaultBump PROGRAM_ID } :=
  c7_initialize_rejected_when_existing chain1
    { is_paused := false, bump := bankVaultBump PROGRAM_ID } (by decide)

/-- C10: lesson 05 dispatches exactly the four instructions initialize,
invest, deposit, deposit_token; neither lesson 05's entry points nor the
modules lesson 04 compiles include withdraw, withdraw_token or pause. -/
theorem c10_instruction_surface :
    lesson05Entrypoints.length = 4 ∧
    "initialize" ∈ lesson05Entrypoints ∧
    "invest" ∈ lesson05Entrypoints ∧
    "deposit" ∈ lesson05Entrypoints ∧
    "deposit_token" ∈ lesson05Entrypoints ∧
    "withdraw" ∉ lesson05Entrypoints ∧
    "withdraw_token" ∉ lesson05Entrypoints ∧
    "pause" ∉ lesson05Entrypoints ∧
    "withdraw" ∉ lesson04InstructionModules ∧
    "withdraw_token" ∉ lesson04InstructionModules ∧
    "pause" ∉ lesson04InstructionModules := by
  decide

/-- C4 (counterexample): the claim fails on lesson 03: the signer seeds its
`Withdraw::process` builds use the bank-info seed tag, not the vault seed
tag, so even when the stored bump is exactly the vault bump the seeds do
not reproduce the vault derived address. -/
theorem c4_lesson03_seeds_do_not_derive_vault :
    createProgramAddress
        (withdraw03SignerSeeds
          { is_paused := false, bump := bankVaultBump PROGRAM_ID })
        PROGRAM_ID
      ≠ bankVaultAddress PROGRAM_ID := by
  decide

/-- C4 (amended): lesson 04 signs with the vault seed tag plus the stored
bump, which reproduces the vault derived address exactly when the stored
bump is the vault canonical bump; lesson 03 signs with the bank-info seed
tag plus the stored bump, which reproduces the bank-info derived address
(not a separate vault address) when the stored bump is the bank-info
canonical bump. -/
theorem c4_signer_seeds_reproduce_addresses
    (b3 b4 : BankInfo)
    (h3 : b3.bump = bankInfoBump PROGRAM_ID)
    (h4 : b4.bump = bankVaultBump PROGRAM_ID) :
    createProgramAddress (withdraw03SignerSeeds b3) PROGRAM_ID =
      bankInfoAddress PROGRAM_ID ∧
    createProgramAddress (withdraw04SignerSeeds b4) PROGRAM_ID =
      bankVaultAddress PROGRAM_ID := by
  constructor <;>
    simp [withdraw03SignerSeeds, withdraw04SignerSeeds, h3, h4,
      bankInfoAddress, bankInfoBump, bankVaultAddress, bankVaultBump,
      createProgramAddress, findProgramAddress]

/-- Witness for C4 at concrete stored bumps. -/
theorem c4_signer_seeds_reproduce_addresses_witness :
    createProgramAddress
        (withdraw03SignerSeeds
          { is_paused := false, bump := bankInfoBump PROGRAM_ID })
        PROGRAM_ID
      = bankInfoAddress PROGRAM_ID ∧
    createProgramAddress
        (withdraw04SignerSeeds
          { is_paused := false, bump := bankVaultBump PROGRAM_ID })
        PROGRAM_ID
      = bankVaultAddress PROGRAM_ID :=
  c4_signer_seeds_reproduce_addresses
    { is_paused := false, bump := bankInfoBump PROGRAM_ID }
    { is_paused := false, bump := bankVaultBump PROGRAM_ID }
    (by decide) (by decide)

/-- C2: every instruction other than Initialize — Deposit, DepositToken,
Withdraw, WithdrawToken, Invest — fails with the pause error
(`BankAppError::BankAppPaused`, the error the spec names `BankPaused`) and
leaves the state untouched whenever `is_paused = true`, for every amount
and direction flag, provided the runtime resolves the named accounts. -/
theorem c2_paused_blocks_everything
    (c : Chain) (bi : BankInfo) (i : Instr)
    (hbi : c.bankInfo = some bi) (hp : bi.is_paused = true)
    (hni : i ≠ Instr.Initialize) (hacc : accountsResolve c i = true) :
    step c i = (Except.error BankAppError.BankAppPaused, c) := by
  cases i with
  | Initialize => exact absurd rfl hni
  | Deposit u a => simp [step, Deposit.process, hbi, hp]
  | DepositToken u a => simp [step, DepositToken.process, hbi, hp]
  | Withdraw u a =>
      rw [accountsResolve, Option.isSome_iff_exists] at hacc
      obtain ⟨r, hr⟩ := hacc
      simp [step, Withdraw03.process, hbi, hr, hp]
  | WithdrawToken u a =>
      rw [accountsResolve, Option.isSome_iff_exists] at hacc
      obtain ⟨r, hr⟩ := hacc
      simp [step, WithdrawToken.process, hbi, hr, hp]
  | Invest u a s =>
      rw [accountsResolve, Option.isSome_iff_exists] at hacc
      obtain ⟨r, hr⟩ := hacc
      simp [step, Invest.process, hbi, hr, hp]

/-- Witness for C2: in a paused state with user A holding a reserve, a
deposit request errors with the pause error and changes nothing. -/
theorem c2_paused_blocks_everything_witness :
    step
      { bankInfo := some { is_paused := true, bump := 255 },
        reserves := [(userA, { owner := userA, balance := 7, bump := 255 })],
        wallets := [(userA, 50)], vault := 7,
        tokenWallets := [], tokenVault := 0, staked := 0 }
      (Instr.Deposit userA 50)
    = (Except.error BankAppError.BankAppPaused,
      { bankInfo := some { is_paused := true, bump := 255 },
        reserves := [(userA, { owner := userA, balance := 7, bump := 255 })],
        wallets := [(userA, 50)], vault := 7,
        tokenWallets := [], tokenVault := 0, staked := 0 }) :=
  c2_paused_blocks_everything _ { is_paused := true, bump := 255 } _
    (by decide) (by decide) (by decide) (by decide)

/-- Helper for the atomicity analysis: if dispatching any instruction
returns an error paired with a post-state, that post-state is the
pre-state.  Proved by walking every branch of every handler. -/
theorem step_error_state
    (c c2 : Chain) (i : Instr) (e : BankAppError)
    (h : step c i = (Except.error e, c2)) :
    c2 = c := by
  cases i with
  | Initialize =>
      rw [step, Initialize.process] at h
      repeat'
        first
          | split at h
          | dsimp only at h
      all_goals
        (injection h with h1 h2
         first
           | exact h2.symm
           | exact Except.noConfusion h1)
  | Deposit u a =>
      rw [step, Deposit.process] at h
      repeat'
        first
          | split at h
          | dsimp only at h
      all_goals
        (injection h with h1 h2
         first
           | exact h2.symm
           | exact Except.noConfusion h1)
  | DepositToken u a =>
      rw [step, DepositToken.process] at h
      repeat'
        first
          | split at h
          | dsimp only at h
      all_goals
        (injection h with h1 h2
         first
           | exact h2.symm
           | exact Except.noConfusion h1)
  | Withdraw u a =>
      rw [step, Withdraw03.process] at h
      repeat'
        first
          | split at h
          | dsimp only at h
      all_goals
        (injection h with h1 h2
         first
           | exact h2.symm
           | exact Except.noConfusion h1)
  | WithdrawToken u a =>
      rw [step, WithdrawToken.process] at h
      repeat'
        first
          | split at h
          | dsimp only at h
      all_goals
        (injection h with h1 h2
         first
           | exact h2.symm
           | exact Except.noConfusion h1)
  | Invest u a s =>
      rw [step, Invest.process] at h
      repeat'
        first
          | split at h
          | dsimp only at h
      all_goals
        (injection h with h1 h2
         first
           | exact h2.symm
           | exact Except.noConfusion h1)

/-- C8: every handler performs all of its checks before any mutation: for
every instruction and every pre-state, if dispatch returns an error then
the state the handler hands back is exactly the pre-state (a failed
instruction has zero effect). -/
theorem c8_error_implies_no_mutation
    (c : Chain) (i : Instr) (e : BankAppError)
    (h : (step c i).1 = Except.error e) :
    (step c i).2 = c := by
  have hpair : step c i = (Except.error e, (step c i).2) := by
    rw [← h]
  exact step_error_state c (step c i).2 i e hpair

/-- Witness for C8: a withdraw against a missing reserve account errors and
leaves the fresh deployment state unchanged. -/
theorem c8_error_implies_no_mutation_witness :
    (step chain0 (Instr.Withdraw userA 5)).2 = chain0 :=
  c8_error_implies_no_mutation chain0 (Instr.Withdraw userA 5)
    BankAppError.AccountNotFound (by decide)

end BankApp
